/-
  Verification of the AgentCrab dispatch and orchestration engine.

  Shallow embedding of `backend/app/services/dispatcher.py`,
  `backend/app/services/supervisor.py`, `backend/app/services/gateway.py`
  and `backend/app/events.py`.  Environment effects (the gateway RPC call,
  the spawned CLI process, uuid generation, wall-clock time) are passed in
  explicitly as parameters or outcome values; fallible operations return
  `Except String`.
-/
import Mathlib

namespace AgentCrab

/-- `l[-n:]` in Python: the last `n` elements of a list (all of them when
    the list is shorter). -/
def lastN (n : Nat) (l : List α) : List α :=
  l.drop (l.length - n)

/-- Update the first element satisfying `p` (Python `for ... if ...: mutate; break`).
    Elements after the first match are untouched; no match leaves the list as is. -/
def updateFirst (p : α → Bool) (f : α → α) : List α → List α
  | [] => []
  | t :: ts => if p t then f t :: ts else t :: updateFirst p f ts

-- ── Dispatch state (dispatcher.py) ──────────────────────────────────────────

/-- `DispatchStatus` enum from dispatcher.py. -/
inductive DispatchStatus where
  | pending
  | dispatching
  | dispatched
  | delivered
  | claimed
  | executing
  | completed
  | failed
  | timeout
deriving DecidableEq

/-- The string value of each enum member. -/
def DispatchStatus.value : DispatchStatus → String
  | .pending => "pending"
  | .dispatching => "dispatching"
  | .dispatched => "dispatched"
  | .delivered => "delivered"
  | .claimed => "claimed"
  | .executing => "executing"
  | .completed => "completed"
  | .failed => "failed"
  | .timeout => "timeout"

/-- `DispatchRecord` dataclass from dispatcher.py. -/
structure DispatchRecord where
  id : String
  task_id : String
  agent_id : String
  status : DispatchStatus
  message : String
  response : Option String
  error : Option String
  attempt : Nat
  created_at_ms : Int
  dispatched_at_ms : Option Int
  completed_at_ms : Option Int
deriving DecidableEq

/-- Construction of a fresh `DispatchRecord` as in `dispatch_task_to_agent`:
    `__post_init__` fills the id from uuid4 and the creation time from the
    clock; both are passed in here (`recId`, `now`) since they come from the
    environment. -/
def mkDispatchRecord (recId : String) (now : Int)
    (taskId agentId message : String) (attempt : Nat) : DispatchRecord :=
  { id := recId
    task_id := taskId
    agent_id := agentId
    status := .pending
    message := message
    response := none
    error := none
    attempt := attempt
    created_at_ms := now
    dispatched_at_ms := none
    completed_at_ms := none }

-- ── Task table entries (dicts in mission_control/tasks.json) ────────────────

/-- One entry of `t["dispatch"]["history"]`. -/
structure DispatchHistEntry where
  hid : String
  agentId : String
  status : String
  attempt : Nat
  atMs : Int
  error : Option String
deriving DecidableEq

/-- The `t["dispatch"]` sub-dict; every key may be absent. -/
structure DispatchMeta where
  lastDispatchAtMs : Option Int
  lastDispatchStatus : Option String
  dispatchCount : Option Nat
  lastAgentId : Option String
  lastError : Option String
  history : List DispatchHistEntry
deriving DecidableEq

/-- `t["dispatch"] = {}` — the fresh empty sub-dict. -/
def emptyDispatchMeta : DispatchMeta :=
  { lastDispatchAtMs := none
    lastDispatchStatus := none
    dispatchCount := none
    lastAgentId := none
    lastError := none
    history := [] }

/-- One entry of `t["stateHistory"]`. -/
structure StateTransition where
  fromState : String
  toState : String
  actor : String
  reason : String
  atMs : Int
deriving DecidableEq

/-- The `t["result"]` sub-dict written by `store_task_result`. -/
structure TaskResult where
  resultContent : String
  resultSummary : String
  resultFiles : List String
  resultMetadata : List (String × String)
  executionLog : String
  completedAtMs : Int
deriving DecidableEq

/-- A task dict from tasks.json, restricted to the keys the engine reads
    or writes.  Plain-string keys the code reads with a default collapse a
    missing key into the default; keys whose absence the code distinguishes
    are `Option`s. -/
structure Task where
  id : String
  title : String
  description : String
  priority : String
  status : String
  assigneeIds : List String
  dispatch : Option DispatchMeta
  result : Option TaskResult
  stateHistory : List StateTransition
deriving DecidableEq

-- ── Environment outcomes for one dispatch attempt ───────────────────────────

/-- Outcome of the gateway-RPC strategy (`rpc_send` either returns a result
    or raises). -/
inductive RpcOutcome where
  | ok (result : String)
  | err (msg : String)
deriving DecidableEq

/-- Outcome of the CLI fallback strategy: the spawn itself raising
    (tool executable absent), the process exiting within the 10-second wait
    with some return code, or the wait timing out while the process keeps
    running in the background. -/
inductive CliOutcome where
  | spawnErr (msg : String)
  | exited (code : Int)
  | timedOut
deriving DecidableEq

/-- `_dispatch_via_cli` from dispatcher.py.  A raise during the spawn
    propagates to the caller (`Except.error`); every other outcome — exit
    code 0, non-zero exit, or the 10s wait timing out — marks the record
    DISPATCHED with a dispatched timestamp. -/
def dispatch_via_cli (cli : CliOutcome) (record : DispatchRecord) (now : Int) :
    Except String DispatchRecord :=
  match cli with
  | .spawnErr e => .error e
  | .exited code =>
      if code = 0 then
        .ok { record with
                status := .dispatched
                dispatched_at_ms := some now
                response := some "cli_dispatched" }
      else
        .ok { record with
                status := .dispatched
                dispatched_at_ms := some now
                response := some "cli_dispatched_async" }
  | .timedOut =>
      .ok { record with
              status := .dispatched
              dispatched_at_ms := some now
              response := some "cli_dispatched_background" }

/-- `dispatch_task_to_agent` from dispatcher.py, restricted to the record it
    builds (the log append, task-metadata update and events are modelled
    separately and composed in `dispatchStep`).  `rpc` and `cli` are the
    outcomes of the two delivery strategies. -/
def dispatch_task_to_agent (task : Task) (agentId : String) (message : String)
    (attempt : Nat) (useCliFallback : Bool)
    (rpc : RpcOutcome) (cli : CliOutcome) (recId : String) (now : Int) :
    DispatchRecord :=
  let record :=
    { mkDispatchRecord recId now task.id agentId message attempt with
        status := .dispatching }
  match rpc with
  | .ok result =>
      { record with
          status := .dispatched
          dispatched_at_ms := some now
          response := some (if result.isEmpty then "ok" else result.take 1000) }
  | .err rpcErr =>
      if useCliFallback then
        match dispatch_via_cli cli record now with
        | .ok r => r
        | .error cliErr =>
            { record with
                status := .failed
                error := some ("RPC: " ++ rpcErr ++ " | CLI: " ++ cliErr) }
      else
        { record with status := .failed, error := some rpcErr }

/-- `record.dispatched_at_ms or record.created_at_ms` — Python `or` falls
    through on `None` and on `0`. -/
def orTruthyInt (a : Option Int) (b : Int) : Int :=
  match a with
  | some v => if v = 0 then b else v
  | none => b

/-- Body of `_update_task_dispatch_meta` applied to the matching task dict. -/
def applyDispatchMeta (record : DispatchRecord) (t : Task) : Task :=
  let d := t.dispatch.getD emptyDispatchMeta
  let history := lastN 20 (d.history ++
    [{ hid := record.id
       agentId := record.agent_id
       status := record.status.value
       attempt := record.attempt
       atMs := orTruthyInt record.dispatched_at_ms record.created_at_ms
       error := record.error }])
  let d' : DispatchMeta :=
    { lastDispatchAtMs := record.dispatched_at_ms
      lastDispatchStatus := some record.status.value
      dispatchCount := some (d.dispatchCount.getD 0 + 1)
      lastAgentId := some record.agent_id
      lastError := record.error
      history := history }
  let status' :=
    if (t.status = "inbox" ∨ t.status = "assigned") ∧
        record.status = DispatchStatus.dispatched
    then "assigned" else t.status
  { t with dispatch := some d', status := status' }

/-- `_update_task_dispatch_meta` from dispatcher.py: update the first task
    whose id matches the record's task id (the loop breaks after the first
    hit); an unknown id leaves the table unchanged. -/
def update_task_dispatch_meta (record : DispatchRecord) (tasks : List Task) :
    List Task :=
  updateFirst (fun t => t.id == record.task_id) (applyDispatchMeta record) tasks

-- ── Dispatch log and delegation log ─────────────────────────────────────────

/-- Append to a `deque(maxlen=cap)`: the new element goes to the right and
    the oldest elements are evicted from the left once `cap` is exceeded. -/
def boundedAppend (cap : Nat) (log : List α) (r : α) : List α :=
  lastN cap (log ++ [r])

/-- `_dispatch_log.append(record)` — the dispatch log is
    `deque(maxlen=500)`. -/
def dispatchLogAppend (log : List DispatchRecord) (r : DispatchRecord) :
    List DispatchRecord :=
  boundedAppend 500 log r

/-- `DelegationRecord` dataclass from supervisor.py. -/
structure DelegationRecord where
  id : String
  task_id : String
  supervisor_id : String
  worker_id : String
  reason : String
  skills_matched : List String
  state : String
  feedback : Option String
  iteration : Nat
  created_at_ms : Int
deriving DecidableEq

/-- `record_delegation` from supervisor.py, restricted to the in-memory log
    (`_delegation_log.append(record)` — a plain Python list, no trimming;
    the activity-feed side effect is independent of the log). -/
def record_delegation (log : List DelegationRecord) (r : DelegationRecord) :
    List DelegationRecord :=
  log ++ [r]

-- ── Fan-out dispatch, retry and the stale-task scan ─────────────────────────

/-- The pair of strategy outcomes the environment supplies for one
    `dispatch_task_to_agent` call. -/
structure DispatchEnv where
  rpc : RpcOutcome
  cli : CliOutcome
deriving DecidableEq

/-- One full `dispatch_task_to_agent` call including its side effects on the
    task table and the in-memory dispatch log. -/
def dispatchStep (task : Task) (agentId : String) (message : String)
    (attempt : Nat) (env : DispatchEnv) (recId : String) (now : Int)
    (tasks : List Task) (log : List DispatchRecord) :
    DispatchRecord × List Task × List DispatchRecord :=
  let r := dispatch_task_to_agent task agentId message attempt true
      env.rpc env.cli recId now
  (r, update_task_dispatch_meta r tasks, dispatchLogAppend log r)

/-- The sequential fan-out loop shared by `dispatch_task` and
    `retry_dispatch`: one `dispatch_task_to_agent` call per assignee, in
    order, threading the task table and the dispatch log.  `gen i` is the
    uuid-generated id of the `i`-th record and `envs i` that call's strategy
    outcomes. -/
def dispatchList (task : Task) (message : String) (attempt : Nat)
    (gen : Nat → String) (envs : Nat → DispatchEnv) (now : Int) :
    List String → Nat → List Task → List DispatchRecord →
    List DispatchRecord × List Task × List DispatchRecord
  | [], _, tasks, log => ([], tasks, log)
  | aid :: rest, i, tasks, log =>
      let step := dispatchStep task aid message attempt (envs i) (gen i) now
        tasks log
      let next := dispatchList task message attempt gen envs now rest (i + 1)
        step.2.1 step.2.2
      (step.1 :: next.1, next.2)

/-- `dispatch_task` from dispatcher.py: `task.get("assigneeIds") or []`; an
    empty or missing assignee list returns `[]` without dispatching, else one
    record per assignee in order (attempt number 1). -/
def dispatch_task (task : Task) (message : String) (gen : Nat → String)
    (envs : Nat → DispatchEnv) (now : Int)
    (tasks : List Task) (log : List DispatchRecord) :
    List DispatchRecord × List Task × List DispatchRecord :=
  if task.assigneeIds.isEmpty then ([], tasks, log)
  else dispatchList task message 1 gen envs now task.assigneeIds 0 tasks log

/-- `task.get("dispatch", {}).get("dispatchCount", 0)`. -/
def taskDispatchCount (t : Task) : Nat :=
  ((t.dispatch.map (fun d => d.dispatchCount.getD 0)).getD 0)

/-- `retry_dispatch` from dispatcher.py: look the task up by id (raising
    `Task not found` otherwise), seed the attempt number from the stored
    dispatch count + 1, and dispatch either to the one targeted agent or to
    every assignee. -/
def retry_dispatch (taskId : String) (agentIdOpt : Option String)
    (message : String) (gen : Nat → String) (envs : Nat → DispatchEnv)
    (now : Int) (tasks : List Task) (log : List DispatchRecord) :
    Except String (List DispatchRecord × List Task × List DispatchRecord) :=
  match tasks.find? (fun t => t.id == taskId) with
  | none => .error ("Task not found: " ++ taskId)
  | some task =>
      let prevCount := taskDispatchCount task
      match agentIdOpt with
      | some aid =>
          .ok (dispatchList task message (prevCount + 1) gen envs now
            [aid] 0 tasks log)
      | none =>
          .ok (dispatchList task message (prevCount + 1) gen envs now
            task.assigneeIds 0 tasks log)

/-- Python truthiness of an optional integer (`None` and `0` are falsy). -/
def optTruthyInt : Option Int → Bool
  | some v => v != 0
  | none => false

/-- The retry condition of `_check_stale_tasks` for a single task: true
    exactly when the scan calls `retry_dispatch` on it.  The auto-dispatch
    branch (`assigned` with no dispatch timestamp and some assignees)
    `continue`s past the retry check and so is reflected here. -/
def staleRetryFires (t : Task) (nowMs : Int) : Bool :=
  let dispatch := t.dispatch.getD emptyDispatchMeta
  let lastMs := dispatch.lastDispatchAtMs
  let autoDispatchBranch :=
    t.status == "assigned" && !optTruthyInt lastMs && !t.assigneeIds.isEmpty
  if autoDispatchBranch then false
  else
    (t.status == "assigned" || t.status == "inbox")
      && dispatch.lastDispatchStatus == some "dispatched"
      && optTruthyInt lastMs
      && decide (nowMs - lastMs.getD 0 > 30 * 60 * 1000)
      && decide (dispatch.dispatchCount.getD 0 < 3)

-- ── Supervisor: result storage and state-transition recording ───────────────

/-- `store_task_result` from supervisor.py: sets `t["result"]` on the first
    task with a matching id; the `for ... else` raises `Task not found` when
    no task matches. -/
def store_task_result (taskId : String) (content summary : String)
    (files : List String) (metadata : List (String × String))
    (executionLog : String) (now : Int) (tasks : List Task) :
    Except String (TaskResult × List Task) :=
  let resultData : TaskResult :=
    { resultContent := content
      resultSummary := summary
      resultFiles := files
      resultMetadata := metadata
      executionLog := executionLog
      completedAtMs := now }
  if tasks.any (fun t => t.id == taskId) then
    .ok (resultData,
      updateFirst (fun t => t.id == taskId)
        (fun t => { t with result := some resultData }) tasks)
  else
    .error ("Task not found: " ++ taskId)

/-- `record_state_transition` from supervisor.py: appends to the first
    matching task's `stateHistory` (trimmed to the last 50) and writes the
    table back.  There is no `else` raise: an unknown task id completes
    silently with the table unchanged. -/
def record_state_transition (taskId fromState toState actor reason : String)
    (now : Int) (tasks : List Task) : Except String (List Task) :=
  .ok (updateFirst (fun t => t.id == taskId)
    (fun t =>
      { t with stateHistory :=
          lastN 50 (t.stateHistory ++
            [{ fromState := fromState
               toState := toState
               actor := actor
               reason := reason
               atMs := now }]) })
    tasks)

-- ── Supervisor: capability registry and matching ────────────────────────────

/-- `needle` is a prefix of `hay` (character lists). -/
def isPrefixCh : List Char → List Char → Bool
  | [], _ => true
  | _ :: _, [] => false
  | a :: as, b :: bs => a == b && isPrefixCh as bs

/-- Python `needle in hay` substring containment (character lists). -/
def containsSub (needle : List Char) : List Char → Bool
  | [] => needle.isEmpty
  | c :: rest => isPrefixCh needle (c :: rest) || containsSub needle rest

/-- Python `needle in hay` on strings. -/
def strIn (needle hay : String) : Bool :=
  containsSub needle.data hay.data

/-- Python `str.lower()` (ASCII case folding, which covers every string the
    registry and the matcher handle). -/
def lowerStr (s : String) : String :=
  String.mk (s.data.map Char.toLower)

/-- Capability entry of one agent in `AGENT_CAPABILITIES`. -/
structure AgentCaps where
  role : String
  skills : List String
  isSupervisor : Bool
  canExecute : Bool
deriving DecidableEq

/-- `AGENT_CAPABILITIES` from supervisor.py, in dict insertion order. -/
def AGENT_CAPABILITIES : List (String × AgentCaps) :=
  [ ("jarvis",
     { role := "Supervisory Orchestrator"
       skills := ["delegation", "review", "coordination", "planning",
                  "quality-assurance"]
       isSupervisor := true, canExecute := false }),
    ("shuri",
     { role := "Product Analyst"
       skills := ["testing", "ux-analysis", "competitive-analysis",
                  "bug-hunting", "user-research"]
       isSupervisor := false, canExecute := true }),
    ("fury",
     { role := "Customer Researcher"
       skills := ["research", "data-analysis", "customer-insights",
                  "market-research", "surveys"]
       isSupervisor := false, canExecute := true }),
    ("vision",
     { role := "SEO Analyst"
       skills := ["seo", "keyword-research", "content-optimization",
                  "analytics", "search-ranking"]
       isSupervisor := false, canExecute := true }),
    ("loki",
     { role := "Content Writer"
       skills := ["writing", "blog", "copywriting", "editing",
                  "content-strategy", "storytelling"]
       isSupervisor := false, canExecute := true }),
    ("quill",
     { role := "Social Media Manager"
       skills := ["social-media", "engagement", "content-calendar",
                  "community", "viral-content"]
       isSupervisor := false, canExecute := true }),
    ("wanda",
     { role := "Designer"
       skills := ["design", "ui-ux", "visual-design", "mockups",
                  "brand-identity"]
       isSupervisor := false, canExecute := true }),
    ("pepper",
     { role := "Email Marketing Specialist"
       skills := ["email-marketing", "campaigns", "newsletters",
                  "automation", "conversion"]
       isSupervisor := false, canExecute := true }),
    ("friday",
     { role := "Developer"
       skills := ["coding", "development", "implementation", "debugging",
                  "devops", "scripting"]
       isSupervisor := false, canExecute := true }),
    ("wong",
     { role := "Notion Agent"
       skills := ["documentation", "knowledge-base", "organization",
                  "project-management"]
       isSupervisor := false, canExecute := true }) ]

/-- `SKILL_KEYWORDS` from supervisor.py. -/
def SKILL_KEYWORDS : List (String × List String) :=
  [ ("writing", ["write", "blog", "article", "post", "copy", "content",
                 "story", "essay", "draft"]),
    ("blog", ["blog", "article", "post"]),
    ("seo", ["seo", "search", "keyword", "ranking", "organic", "serp"]),
    ("design", ["design", "ui", "ux", "mockup", "visual", "brand", "logo",
                "layout"]),
    ("coding", ["code", "develop", "implement", "build", "program",
                "script", "fix", "bug", "deploy"]),
    ("development", ["code", "develop", "implement", "build", "program"]),
    ("research", ["research", "analyze", "investigate", "study", "survey",
                  "data"]),
    ("testing", ["test", "qa", "quality", "bug", "edge-case", "review"]),
    ("social-media", ["social", "twitter", "linkedin", "instagram",
                      "tiktok", "facebook", "post"]),
    ("email-marketing", ["email", "newsletter", "campaign", "drip",
                         "subscriber"]),
    ("documentation", ["document", "notion", "wiki", "knowledge",
                       "organize"]) ]

/-- `SKILL_KEYWORDS.get(skill, [])`. -/
def skillKeywords (skill : String) : List String :=
  ((SKILL_KEYWORDS.find? (fun p => p.1 == skill)).map (fun p => p.2)).getD []

/-- The score one agent accumulates over the task text: +3 per skill tag
    found verbatim in the text, +2 per expansion keyword of that skill found
    in the text. -/
def agentScore (text : String) (caps : AgentCaps) : Nat :=
  caps.skills.foldl
    (fun acc skill =>
      let acc' := if strIn skill text then acc + 3 else acc
      (skillKeywords skill).foldl
        (fun a kw => if strIn kw text then a + 2 else a) acc')
    0

/-- Python `max(scores, key=scores.get)` over an association list in dict
    insertion order: the first key attaining the maximal value. -/
def pickBest : List (String × Nat) → Option String
  | [] => none
  | h :: t =>
      some (t.foldl (fun best x => if x.2 > best.2 then x else best) h).1

/-- The positive-score table built by `match_agent_for_task`, in registry
    order, restricted to non-supervisor executing agents. -/
def matchScores (text : String) : List (String × Nat) :=
  AGENT_CAPABILITIES.filterMap
    (fun p =>
      if p.2.isSupervisor || !p.2.canExecute then none
      else
        let s := agentScore text p.2
        if s > 0 then some (p.1, s) else none)

/-- `match_agent_for_task` from supervisor.py. -/
def match_agent_for_task (title description : String) : Option String :=
  let text := lowerStr title ++ " " ++ lowerStr description
  pickBest (matchScores text)

-- ── Event bus (events.py) ───────────────────────────────────────────────────

/-- An `Event` as far as the bus is concerned. -/
structure BusEvent where
  etype : String
  payload : String
deriving DecidableEq

/-- One subscriber's `asyncio.Queue`: `qid` stands for the queue's object
    identity, `maxsize` its capacity (`0` meaning unbounded, as in asyncio)
    and `contents` the queued events. -/
structure SubQueue where
  qid : Nat
  maxsize : Nat
  contents : List BusEvent
deriving DecidableEq

/-- `put_nowait` raises `QueueFull` exactly when the queue is bounded and at
    capacity. -/
def queueFull (q : SubQueue) : Bool :=
  0 < q.maxsize && q.maxsize ≤ q.contents.length

/-- The bus state guarded by the publish lock. -/
structure BusState where
  subscribers : List SubQueue
  history : List BusEvent
deriving DecidableEq

/-- `EventBus.publish` from events.py with the default `max_history = 500`:
    append to the bounded history, offer the event to every subscriber, and
    remove the subscribers whose queue was full.  Total — no error reaches
    the publisher. -/
def publish (st : BusState) (e : BusEvent) : BusState :=
  { history := lastN 500 (st.history ++ [e])
    subscribers :=
      st.subscribers.filterMap
        (fun q =>
          if queueFull q then none
          else some { q with contents := q.contents ++ [e] }) }

-- ── Gateway response matching (gateway.py) ──────────────────────────────────

/-- One decoded incoming gateway message, restricted to the keys
    `_await_response` reads.  `errField = none` models an absent (or falsy)
    `error` value; `errField = some m` a truthy error dict whose optional
    `message` is `m`. -/
structure GwMessage where
  mtype : Option String
  mid : Option String
  ok : Option Bool
  errField : Option (Option String)
  payload : Option String
  result : Option String
deriving DecidableEq

/-- Default response-wait timeout of `_await_response`, in seconds. -/
def awaitResponseTimeoutSecs : Nat := 30

/-- `_await_response` from gateway.py.  The argument list holds the messages
    that arrive before the overall deadline, in order; running out of them is
    the wait timing out.  `Except.error` is the single `GatewayError` kind,
    carrying its message. -/
def awaitResponse (requestId : String) : List GwMessage → Except String (Option String)
  | [] => .error ("Timeout waiting for response to " ++ requestId)
  | m :: rest =>
      if m.mtype == some "res" && m.mid == some requestId then
        match m.ok with
        | some false => .error ((m.errField.bind id).getD "Gateway error")
        | _ => .ok m.payload
      else if m.mid == some requestId then
        match m.errField with
        | some inner => .error (inner.getD "Gateway error")
        | none => .ok m.result
      else awaitResponse requestId rest

-- ── Support lemmas ──────────────────────────────────────────────────────────

/-- Map with an index that starts at `i`. -/
def mapIdxFrom (f : Nat → α → β) : Nat → List α → List β
  | _, [] => []
  | i, a :: as => f i a :: mapIdxFrom f (i + 1) as

theorem mapIdxFrom_length (f : Nat → α → β) :
    ∀ (i : Nat) (l : List α), (mapIdxFrom f i l).length = l.length := by
  intro i l
  induction l generalizing i with
  | nil => rfl
  | cons a as ih => simp [mapIdxFrom, ih]

theorem mapIdxFrom_get (f : Nat → α → β) :
    ∀ (l : List α) (i : Nat) (j : Nat) (h : j < (mapIdxFrom f i l).length)
      (h' : j < l.length),
      (mapIdxFrom f i l).get ⟨j, h⟩ = f (i + j) (l.get ⟨j, h'⟩) := by
  intro l
  induction l with
  | nil => intro i j h h'; exact absurd h' (by simp)
  | cons a as ih =>
      intro i j h h'
      cases j with
      | zero => simp [mapIdxFrom]
      | succ j =>
          have hj : j < (mapIdxFrom f (i + 1) as).length := by
            simpa [mapIdxFrom, mapIdxFrom_length] using h
          have hj' : j < as.length := by simpa using h'
          have := ih (i + 1) j hj hj'
          simpa [mapIdxFrom, Nat.add_assoc, Nat.add_comm 1 j] using this

/-- The record fields of one `dispatch_task_to_agent` call that do not
    depend on the strategy outcomes. -/
theorem dispatch_task_to_agent_fields (task : Task) (aid message : String)
    (attempt : Nat) (useCli : Bool) (rpc : RpcOutcome) (cli : CliOutcome)
    (recId : String) (now : Int) :
    (dispatch_task_to_agent task aid message attempt useCli rpc cli recId now).id
        = recId
    ∧ (dispatch_task_to_agent task aid message attempt useCli rpc cli recId now).agent_id
        = aid
    ∧ (dispatch_task_to_agent task aid message attempt useCli rpc cli recId now).task_id
        = task.id
    ∧ (dispatch_task_to_agent task aid message attempt useCli rpc cli recId now).attempt
        = attempt := by
  cases rpc with
  | ok result => simp [dispatch_task_to_agent, mkDispatchRecord]
  | err msg =>
      cases useCli with
      | false => simp [dispatch_task_to_agent, mkDispatchRecord]
      | true =>
          cases cli with
          | spawnErr e =>
              simp [dispatch_task_to_agent, dispatch_via_cli, mkDispatchRecord]
          | timedOut =>
              simp [dispatch_task_to_agent, dispatch_via_cli, mkDispatchRecord]
          | exited code =>
              by_cases hc : code = 0 <;>
                simp [dispatch_task_to_agent, dispatch_via_cli,
                  mkDispatchRecord, hc]

/-- The records produced by the fan-out loop, as an indexed map. -/
theorem dispatchList_records (task : Task) (message : String) (attempt : Nat)
    (gen : Nat → String) (envs : Nat → DispatchEnv) (now : Int) :
    ∀ (l : List String) (i : Nat) (tasks : List Task)
      (log : List DispatchRecord),
      (dispatchList task message attempt gen envs now l i tasks log).1 =
        mapIdxFrom
          (fun j aid => dispatch_task_to_agent task aid message attempt true
            (envs j).rpc (envs j).cli (gen j) now) i l := by
  intro l
  induction l with
  | nil => intro i tasks log; rfl
  | cons a as ih =>
      intro i tasks log
      simp [dispatchList, dispatchStep, mapIdxFrom, ih]

-- ── C1: fan-out dispatch ────────────────────────────────────────────────────

/-- C1: for a task with k ≥ 1 assignee ids, `dispatch_task` produces exactly
    k dispatch records, one per assignee in order, each carrying the task's
    id and a freshly generated distinct record id (`gen` being the injective
    uuid supply); for a task with an empty or missing assignee-id list it
    returns an empty list without error and performs no dispatch (table and
    log untouched). -/
theorem C1_dispatch_task_fanout (task : Task) (message : String)
    (gen : Nat → String) (envs : Nat → DispatchEnv) (now : Int)
    (tasks : List Task) (log : List DispatchRecord)
    (hgen : Function.Injective gen) :
    ((dispatch_task task message gen envs now tasks log).1.length
        = task.assigneeIds.length)
    ∧ (∀ (j : Nat)
        (h : j < (dispatch_task task message gen envs now tasks log).1.length)
        (h' : j < task.assigneeIds.length),
        ((dispatch_task task message gen envs now tasks log).1.get ⟨j, h⟩).agent_id
            = task.assigneeIds.get ⟨j, h'⟩
        ∧ ((dispatch_task task message gen envs now tasks log).1.get ⟨j, h⟩).task_id
            = task.id
        ∧ ((dispatch_task task message gen envs now tasks log).1.get ⟨j, h⟩).id
            = gen j)
    ∧ (dispatch_task task message gen envs now tasks log).1.Pairwise
        (fun a b => a.id ≠ b.id)
    ∧ (task.assigneeIds = [] →
        dispatch_task task message gen envs now tasks log = ([], tasks, log)) := by
  by_cases hemp : task.assigneeIds.isEmpty
  · have he : task.assigneeIds = [] := List.isEmpty_iff.mp hemp
    constructor
    · simp [dispatch_task, hemp, he]
    refine ⟨?_, ?_, ?_⟩
    · intro j h h'
      rw [he] at h'
      exact absurd h' (by simp)
    · simp [dispatch_task, hemp]
    · intro _; simp [dispatch_task, hemp]
  · have hres :
        (dispatch_task task message gen envs now tasks log).1 =
          mapIdxFrom
            (fun j aid => dispatch_task_to_agent task aid message 1 true
              (envs j).rpc (envs j).cli (gen j) now) 0 task.assigneeIds := by
      simp [dispatch_task, hemp, dispatchList_records]
    refine ⟨?_, ?_, ?_, ?_⟩
    · rw [hres, mapIdxFrom_length]
    · intro j
      rw [hres]
      intro h h'
      rw [mapIdxFrom_get _ _ 0 j h h']
      simp only [Nat.zero_add]
      exact ⟨(dispatch_task_to_agent_fields _ _ _ _ _ _ _ _ _).2.1,
        (dispatch_task_to_agent_fields _ _ _ _ _ _ _ _ _).2.2.1,
        (dispatch_task_to_agent_fields _ _ _ _ _ _ _ _ _).1⟩
    · rw [hres, List.pairwise_iff_get]
      intro i j hij
      have hi' : (i : Nat) < task.assigneeIds.length :=
        lt_of_lt_of_eq i.isLt (mapIdxFrom_length _ _ _)
      have hj' : (j : Nat) < task.assigneeIds.length :=
        lt_of_lt_of_eq j.isLt (mapIdxFrom_length _ _ _)
      have e1 := mapIdxFrom_get
        (fun j aid => dispatch_task_to_agent task aid message 1 true
          (envs j).rpc (envs j).cli (gen j) now)
        task.assigneeIds 0 i.1 i.isLt hi'
      have e2 := mapIdxFrom_get
        (fun j aid => dispatch_task_to_agent task aid message 1 true
          (envs j).rpc (envs j).cli (gen j) now)
        task.assigneeIds 0 j.1 j.isLt hj'
      rw [show ((mapIdxFrom _ 0 task.assigneeIds).get i) = _ from e1,
        show ((mapIdxFrom _ 0 task.assigneeIds).get j) = _ from e2]
      simp only [Nat.zero_add,
        (dispatch_task_to_agent_fields _ _ _ _ _ _ _ _ _).1]
      intro hcontr
      exact absurd (hgen hcontr) (Nat.ne_of_lt hij)
    · intro he
      rw [he] at hemp
      simp at hemp

/-- Witness for C1 at a concrete two-assignee task and a concrete injective
    id supply. -/
theorem C1_witness :
    ((dispatch_task
        { id := "t1", title := "T", description := "", priority := "normal"
          status := "inbox", assigneeIds := ["loki", "friday"]
          dispatch := none, result := none, stateHistory := [] }
        "msg" (fun n => String.mk (List.replicate n 'a'))
        (fun _ => { rpc := .err "conn refused", cli := .timedOut })
        1000 [] []).1.length = 2)
    ∧ (dispatch_task
        { id := "t1", title := "T", description := "", priority := "normal"
          status := "inbox", assigneeIds := ["loki", "friday"]
          dispatch := none, result := none, stateHistory := [] }
        "msg" (fun n => String.mk (List.replicate n 'a'))
        (fun _ => { rpc := .err "conn refused", cli := .timedOut })
        1000 [] []).1.Pairwise (fun a b => a.id ≠ b.id) := by
  have hinj : Function.Injective (fun n : Nat => String.mk (List.replicate n 'a')) := by
    intro a b hab
    have := congrArg (fun s : String => s.data.length) hab
    simpa using this
  have h := C1_dispatch_task_fanout
    { id := "t1", title := "T", description := "", priority := "normal"
      status := "inbox", assigneeIds := ["loki", "friday"]
      dispatch := none, result := none, stateHistory := [] }
    "msg" (fun n => String.mk (List.replicate n 'a'))
    (fun _ => { rpc := .err "conn refused", cli := .timedOut })
    1000 [] [] hinj
  exact ⟨h.1, h.2.2.1⟩

-- ── C2: double-failure scenario ─────────────────────────────────────────────

/-- The scenario task of the spec: title "Write a blog post about SEO",
    empty description, single assignee "loki", no dispatch metadata yet. -/
def seoTask : Task :=
  { id := "task-1"
    title := "Write a blog post about SEO"
    description := ""
    priority := "normal"
    status := "inbox"
    assigneeIds := ["loki"]
    dispatch := none
    result := none
    stateHistory := [] }

/-- C2: with the RPC strategy failing (`e1`) and the CLI fallback raising
    (`e2`, tool absent), dispatching the single-assignee scenario task yields
    exactly one FAILED record whose error combines both texts, and the task's
    `dispatchCount` goes from 0 (absent) to 1. -/
theorem C2_double_failure_combined_error (e1 e2 message : String)
    (gen : Nat → String) (now : Int) (log : List DispatchRecord) :
    ((dispatch_task seoTask message gen
        (fun _ => { rpc := .err e1, cli := .spawnErr e2 }) now [seoTask] log).1 =
      [{ id := gen 0
         task_id := "task-1"
         agent_id := "loki"
         status := .failed
         message := message
         response := none
         error := some ("RPC: " ++ e1 ++ " | CLI: " ++ e2)
         attempt := 1
         created_at_ms := now
         dispatched_at_ms := none
         completed_at_ms := none }])
    ∧ ((dispatch_task seoTask message gen
        (fun _ => { rpc := .err e1, cli := .spawnErr e2 }) now [seoTask] log).2.1.map
          taskDispatchCount = [1]) := by
  constructor <;> rfl

-- ── C3: CLI fallback outcomes ───────────────────────────────────────────────

/-- C3: in the CLI fallback strategy, every outcome of the spawned process
    other than the spawn raising — exit 0 within the 10s wait, non-zero exit,
    or the wait timing out — marks the record DISPATCHED with a dispatched
    timestamp; the record becomes FAILED only when the tool invocation
    raises, in which case the caller marks it FAILED. -/
theorem C3_cli_fallback_never_fails_on_slow_reply :
    (∀ (record : DispatchRecord) (now : Int) (code : Int),
      ∃ r, dispatch_via_cli (.exited code) record now = .ok r
        ∧ r.status = .dispatched ∧ r.dispatched_at_ms = some now)
    ∧ (∀ (record : DispatchRecord) (now : Int),
      ∃ r, dispatch_via_cli .timedOut record now = .ok r
        ∧ r.status = .dispatched ∧ r.dispatched_at_ms = some now)
    ∧ (∀ (e : String) (record : DispatchRecord) (now : Int),
      dispatch_via_cli (.spawnErr e) record now = .error e)
    ∧ (∀ (task : Task) (aid message rpcErr cliErr recId : String)
        (attempt : Nat) (now : Int),
      (dispatch_task_to_agent task aid message attempt true
        (.err rpcErr) (.spawnErr cliErr) recId now).status = .failed
      ∧ (dispatch_task_to_agent task aid message attempt true
        (.err rpcErr) (.spawnErr cliErr) recId now).error
          = some ("RPC: " ++ rpcErr ++ " | CLI: " ++ cliErr)) := by
  refine ⟨?_, ?_, ?_, ?_⟩
  · intro record now code
    by_cases hc : code = 0
    · refine ⟨{ record with
          status := .dispatched
          dispatched_at_ms := some now
          response := some "cli_dispatched" }, ?_, rfl, rfl⟩
      simp [dispatch_via_cli, hc]
    · refine ⟨{ record with
          status := .dispatched
          dispatched_at_ms := some now
          response := some "cli_dispatched_async" }, ?_, rfl, rfl⟩
      simp [dispatch_via_cli, hc]
  · intro record now
    exact ⟨_, rfl, rfl, rfl⟩
  · intro e record now
    rfl
  · intro task aid message rpcErr cliErr recId attempt now
    exact ⟨rfl, rfl⟩

-- ── C4: orchestrator stale-retry ceiling ────────────────────────────────────

/-- C4: a task whose last dispatch status is "dispatched", whose status is
    still "assigned" or "inbox", and whose (positive) last dispatch
    timestamp is more than 30 minutes before the scan time is retried by
    `_check_stale_tasks` if and only if its recorded dispatchCount is
    strictly below 3. -/
theorem C4_stale_retry_iff_below_ceiling (t : Task) (d : DispatchMeta)
    (now v : Int)
    (hd : t.dispatch = some d)
    (hstatus : t.status = "assigned" ∨ t.status = "inbox")
    (hls : d.lastDispatchStatus = some "dispatched")
    (hlast : d.lastDispatchAtMs = some v)
    (hv : 0 < v)
    (hstale : now - v > 30 * 60 * 1000) :
    staleRetryFires t now = true ↔ d.dispatchCount.getD 0 < 3 := by
  have hvne : v ≠ 0 := by omega
  rcases hstatus with hs | hs <;>
    simp [staleRetryFires, hd, hs, hls, hlast, optTruthyInt, hvne, hstale] <;>
    intro _ <;> omega

/-- Witness for C4: a concrete stale "assigned" task with dispatch count 2
    (below the ceiling) is retried. -/
theorem C4_witness :
    staleRetryFires
      { id := "t1", title := "T", description := "", priority := "normal"
        status := "assigned", assigneeIds := ["loki"]
        dispatch := some
          { lastDispatchAtMs := some 1000
            lastDispatchStatus := some "dispatched"
            dispatchCount := some 2
            lastAgentId := some "loki"
            lastError := none
            history := [] }
        result := none, stateHistory := [] }
      2000000000 = true := by
  exact (C4_stale_retry_iff_below_ceiling _ _ 2000000000 1000 rfl (Or.inl rfl)
    rfl rfl (by omega) (by omega)).mpr (by decide)

-- ── C5: retry attempt numbering ─────────────────────────────────────────────

/-- The dispatch count the table records for a task id (0 when the id is
    unknown or the count key absent). -/
def countIn (tid : String) (tasks : List Task) : Nat :=
  ((tasks.find? (fun t => t.id == tid)).map taskDispatchCount).getD 0

/-- Whether the table holds a task with the given id. -/
def hasTask (tid : String) (tasks : List Task) : Bool :=
  (tasks.find? (fun t => t.id == tid)).isSome

theorem applyDispatchMeta_id (r : DispatchRecord) (t : Task) :
    (applyDispatchMeta r t).id = t.id := rfl

theorem applyDispatchMeta_count (r : DispatchRecord) (t : Task) :
    taskDispatchCount (applyDispatchMeta r t) = taskDispatchCount t + 1 := by
  cases h : t.dispatch <;>
    simp [applyDispatchMeta, taskDispatchCount, emptyDispatchMeta, h]

/-- `_update_task_dispatch_meta` increments the stored dispatch count of the
    record's task by exactly one (when the task is in the table) and keeps
    the task present. -/
theorem update_meta_count (r : DispatchRecord) :
    ∀ tasks : List Task, hasTask r.task_id tasks = true →
      hasTask r.task_id (update_task_dispatch_meta r tasks) = true
      ∧ countIn r.task_id (update_task_dispatch_meta r tasks)
          = countIn r.task_id tasks + 1 := by
  intro tasks
  induction tasks with
  | nil => intro h; simp [hasTask] at h
  | cons t ts ih =>
      intro h
      by_cases hm : (t.id == r.task_id) = true
      · have hm' : ((applyDispatchMeta r t).id == r.task_id) = true := by
          rw [applyDispatchMeta_id]; exact hm
        have hupd : update_task_dispatch_meta r (t :: ts)
            = applyDispatchMeta r t :: ts := by
          simp [update_task_dispatch_meta, updateFirst, hm]
        constructor
        · unfold hasTask
          rw [hupd, List.find?_cons_of_pos (p := fun x : Task => x.id == r.task_id) _ hm']
          rfl
        · unfold countIn
          rw [hupd, List.find?_cons_of_pos (p := fun x : Task => x.id == r.task_id) _ hm', List.find?_cons_of_pos (p := fun x : Task => x.id == r.task_id) _ hm]
          simp [applyDispatchMeta_count]
      · have hm0 : ¬ ((t.id == r.task_id) = true) := hm
        have hupd : update_task_dispatch_meta r (t :: ts)
            = t :: update_task_dispatch_meta r ts := by
          simp [update_task_dispatch_meta, updateFirst, hm0]
        have hpre : hasTask r.task_id ts = true := by
          unfold hasTask at h ⊢
          rwa [List.find?_cons_of_neg (p := fun x : Task => x.id == r.task_id) _ hm0] at h
        have ihr := ih hpre
        constructor
        · unfold hasTask at ihr ⊢
          rw [hupd, List.find?_cons_of_neg (p := fun x : Task => x.id == r.task_id) _ hm0]
          exact ihr.1
        · unfold countIn at ihr ⊢
          rw [hupd, List.find?_cons_of_neg (p := fun x : Task => x.id == r.task_id) _ hm0, List.find?_cons_of_neg (p := fun x : Task => x.id == r.task_id) _ hm0]
          exact ihr.2

theorem mapIdxFrom_mem {f : Nat → α → β} :
    ∀ {l : List α} {i : Nat} {b : β}, b ∈ mapIdxFrom f i l → ∃ j a, b = f j a := by
  intro l
  induction l with
  | nil => intro i b hb; simp [mapIdxFrom] at hb
  | cons a as ih =>
      intro i b hb
      rcases (by simpa [mapIdxFrom] using hb : b = f i a ∨ b ∈ mapIdxFrom f (i + 1) as) with
        h | h
      · exact ⟨i, a, h⟩
      · exact ih h

/-- Every record produced by one fan-out loop carries the attempt number the
    loop was called with. -/
theorem dispatchList_attempt (task : Task) (message : String) (attempt : Nat)
    (gen : Nat → String) (envs : Nat → DispatchEnv) (now : Int)
    (l : List String) (i : Nat) (tasks : List Task) (log : List DispatchRecord)
    (r : DispatchRecord)
    (hr : r ∈ (dispatchList task message attempt gen envs now l i tasks log).1) :
    r.attempt = attempt := by
  rw [dispatchList_records] at hr
  obtain ⟨j, a, rfl⟩ := mapIdxFrom_mem hr
  exact (dispatch_task_to_agent_fields _ _ _ _ _ _ _ _ _).2.2.2

theorem dispatchList_length (task : Task) (message : String) (attempt : Nat)
    (gen : Nat → String) (envs : Nat → DispatchEnv) (now : Int)
    (l : List String) (i : Nat) (tasks : List Task)
    (log : List DispatchRecord) :
    (dispatchList task message attempt gen envs now l i tasks log).1.length
      = l.length := by
  rw [dispatchList_records, mapIdxFrom_length]

set_option maxRecDepth 4096 in
/-- The fan-out loop increments the table's dispatch count for the task by
    one per assignee dispatched. -/
theorem dispatchList_count (task : Task) (message : String) (attempt : Nat)
    (gen : Nat → String) (envs : Nat → DispatchEnv) (now : Int) :
    ∀ (l : List String) (i : Nat) (tasks : List Task)
      (log : List DispatchRecord),
      hasTask task.id tasks = true →
      hasTask task.id
          (dispatchList task message attempt gen envs now l i tasks log).2.1
          = true
      ∧ countIn task.id
          (dispatchList task message attempt gen envs now l i tasks log).2.1
          = countIn task.id tasks + l.length := by
  intro l
  induction l with
  | nil => intro i tasks log h; exact ⟨h, rfl⟩
  | cons a as ih =>
      intro i tasks log h
      have hrt :
          (dispatch_task_to_agent task a message attempt true (envs i).rpc
            (envs i).cli (gen i) now).task_id = task.id :=
        (dispatch_task_to_agent_fields _ _ _ _ _ _ _ _ _).2.2.1
      have hm := update_meta_count
        (dispatch_task_to_agent task a message attempt true (envs i).rpc
          (envs i).cli (gen i) now) tasks (by rw [hrt]; exact h)
      rw [hrt] at hm
      have ihr := ih (i + 1)
        (update_task_dispatch_meta
          (dispatch_task_to_agent task a message attempt true (envs i).rpc
            (envs i).cli (gen i) now) tasks)
        (dispatchLogAppend log
          (dispatch_task_to_agent task a message attempt true (envs i).rpc
            (envs i).cli (gen i) now))
        hm.1
      refine ⟨ihr.1, ?_⟩
      rw [show (dispatchList task message attempt gen envs now (a :: as) i
            tasks log).2.1
          = (dispatchList task message attempt gen envs now as (i + 1)
              (update_task_dispatch_meta
                (dispatch_task_to_agent task a message attempt true
                  (envs i).rpc (envs i).cli (gen i) now) tasks)
              (dispatchLogAppend log
                (dispatch_task_to_agent task a message attempt true
                  (envs i).rpc (envs i).cli (gen i) now))).2.1 from rfl]
      rw [ihr.2, hm.2]
      simp [Nat.add_assoc, Nat.add_comm 1 as.length]

/-- C5: every record a successful `retry_dispatch` produces — targeted or
    fanned out — carries attempt number (stored dispatchCount) + 1, and the
    retry raises the stored count by the number of records it produced;
    consequently two successive retries (the first producing at least one
    record) give strictly increasing attempt numbers. -/
theorem C5_retry_attempt_numbers :
    (∀ (taskId : String) (agentIdOpt : Option String) (message : String)
        (gen : Nat → String) (envs : Nat → DispatchEnv) (now : Int)
        (tasks : List Task) (log : List DispatchRecord)
        (rs : List DispatchRecord) (ts2 : List Task)
        (log2 : List DispatchRecord),
      retry_dispatch taskId agentIdOpt message gen envs now tasks log
          = .ok (rs, ts2, log2) →
      (∀ r ∈ rs, r.attempt = countIn taskId tasks + 1)
      ∧ countIn taskId ts2 = countIn taskId tasks + rs.length)
    ∧ (∀ (taskId : String) (o1 o2 : Option String) (m1 m2 : String)
        (g1 g2 : Nat → String) (e1 e2 : Nat → DispatchEnv) (n1 n2 : Int)
        (tasks : List Task) (log : List DispatchRecord)
        (rs : List DispatchRecord) (ts2 : List Task)
        (log2 : List DispatchRecord)
        (rs2 : List DispatchRecord) (ts3 : List Task)
        (log3 : List DispatchRecord),
      retry_dispatch taskId o1 m1 g1 e1 n1 tasks log = .ok (rs, ts2, log2) →
      retry_dispatch taskId o2 m2 g2 e2 n2 ts2 log2 = .ok (rs2, ts3, log3) →
      rs ≠ [] →
      ∀ r ∈ rs, ∀ r2 ∈ rs2, r.attempt < r2.attempt) := by
  have main : ∀ (taskId : String) (agentIdOpt : Option String)
      (message : String) (gen : Nat → String) (envs : Nat → DispatchEnv)
      (now : Int) (tasks : List Task) (log : List DispatchRecord)
      (rs : List DispatchRecord) (ts2 : List Task) (log2 : List DispatchRecord),
      retry_dispatch taskId agentIdOpt message gen envs now tasks log
          = .ok (rs, ts2, log2) →
      (∀ r ∈ rs, r.attempt = countIn taskId tasks + 1)
      ∧ countIn taskId ts2 = countIn taskId tasks + rs.length := by
    intro taskId agentIdOpt message gen envs now tasks log rs ts2 log2 hok
    unfold retry_dispatch at hok
    cases hfind : tasks.find? (fun t => t.id == taskId) with
    | none => rw [hfind] at hok; exact absurd hok (by simp)
    | some task =>
        rw [hfind] at hok
        have htid : task.id = taskId := by
          have := List.find?_some hfind
          exact eq_of_beq this
        have hhas : hasTask task.id tasks = true := by
          unfold hasTask
          rw [htid, hfind]
          rfl
        have hcnt : countIn taskId tasks = taskDispatchCount task := by
          unfold countIn
          rw [hfind]
          rfl
        cases agentIdOpt with
        | some aid =>
            have hok' :
                dispatchList task message (taskDispatchCount task + 1) gen envs
                  now [aid] 0 tasks log = (rs, ts2, log2) := by
              simpa using hok
            constructor
            · intro r hr
              rw [hcnt]
              exact dispatchList_attempt task message _ gen envs now [aid] 0
                tasks log r (by rw [hok']; exact hr)
            · have hc := (dispatchList_count task message
                (taskDispatchCount task + 1) gen envs now [aid] 0 tasks log
                hhas).2
              rw [hok'] at hc
              have hlen : rs.length = 1 := by
                have := dispatchList_length task message
                  (taskDispatchCount task + 1) gen envs now [aid] 0 tasks log
                rw [hok'] at this
                simpa using this
              rw [htid] at hc
              rw [hc, hcnt, hlen]
              simp
        | none =>
            have hok' :
                dispatchList task message (taskDispatchCount task + 1) gen envs
                  now task.assigneeIds 0 tasks log = (rs, ts2, log2) := by
              simpa using hok
            constructor
            · intro r hr
              rw [hcnt]
              exact dispatchList_attempt task message _ gen envs now
                task.assigneeIds 0 tasks log r (by rw [hok']; exact hr)
            · have hc := (dispatchList_count task message
                (taskDispatchCount task + 1) gen envs now task.assigneeIds 0
                tasks log hhas).2
              rw [hok'] at hc
              have hlen : rs.length = task.assigneeIds.length := by
                have := dispatchList_length task message
                  (taskDispatchCount task + 1) gen envs now task.assigneeIds 0
                  tasks log
                rw [hok'] at this
                simpa using this
              rw [htid] at hc
              rw [hc, hcnt, hlen]
  refine ⟨main, ?_⟩
  intro taskId o1 o2 m1 m2 g1 g2 e1 e2 n1 n2 tasks log rs ts2 log2 rs2 ts3
    log3 h1 h2 hne r hr r2 hr2
  have p1 := main taskId o1 m1 g1 e1 n1 tasks log rs ts2 log2 h1
  have p2 := main taskId o2 m2 g2 e2 n2 ts2 log2 rs2 ts3 log3 h2
  rw [p1.1 r hr, p2.1 r2 hr2, p1.2]
  have : 1 ≤ rs.length := by
    cases rs with
    | nil => exact absurd rfl hne
    | cons x xs => simp
  omega

/-- Environment for the C5 witness: RPC down, CLI still running at the 10s
    mark (a successful dispatch). -/
def envW : Nat → DispatchEnv := fun _ => { rpc := .err "rpc down", cli := .timedOut }

/-- Constant id supply for the C5 witness. -/
def genW : Nat → String := fun _ => "dsp_w"

/-- First targeted retry of the C5 witness scenario. -/
def retryOut1 : List DispatchRecord × List Task × List DispatchRecord :=
  ((retry_dispatch "task-1" (some "loki") "m" genW envW 5 [seoTask] []).toOption).getD
    ([], [], [])

/-- Second targeted retry, running on the state the first one left. -/
def retryOut2 : List DispatchRecord × List Task × List DispatchRecord :=
  ((retry_dispatch "task-1" (some "loki") "m" genW envW 7 retryOut1.2.1
      retryOut1.2.2).toOption).getD ([], [], [])

/-- Witness for C5: two successive targeted retries of the scenario task
    give strictly increasing attempt numbers. -/
theorem C5_witness :
    (retryOut1.1.headD (mkDispatchRecord "x" 0 "t" "a" "m" 0)).attempt
      < (retryOut2.1.headD (mkDispatchRecord "x" 0 "t" "a" "m" 0)).attempt := by
  refine C5_retry_attempt_numbers.2 "task-1" (some "loki") (some "loki") "m" "m"
    genW genW envW envW 5 7 [seoTask] [] retryOut1.1 retryOut1.2.1
    retryOut1.2.2 retryOut2.1 retryOut2.2.1 retryOut2.2.2 rfl rfl
    (by decide) _ (by decide) _ (by decide)

-- ── C6: not-found handling ──────────────────────────────────────────────────

theorem updateFirst_nomatch {p : α → Bool} {f : α → α} :
    ∀ {l : List α}, (∀ a ∈ l, p a = false) → updateFirst p f l = l := by
  intro l
  induction l with
  | nil => intro _; rfl
  | cons a as ih =>
      intro h
      have ha := h a (by simp)
      simp [updateFirst, ha]
      exact ih (fun x hx => h x (by simp [hx]))

/-- Counterexample to C6: `record_state_transition` on a task id absent from
    the table (the empty table) completes silently with an `ok` result
    instead of failing with a not-found condition. -/
theorem C6_counterexample :
    record_state_transition "missing-task" "inbox" "pending" "system" "" 0 []
      = .ok [] := rfl

/-- C6 amended: `retry_dispatch` and `store_task_result` fail fast with a
    distinct not-found condition on an unknown task id, but
    `record_state_transition` does not — it completes silently, leaving the
    table unchanged. -/
theorem C6_amended_not_found (taskId : String) (tasks : List Task)
    (h : ∀ t ∈ tasks, (t.id == taskId) = false) :
    (∀ (agentIdOpt : Option String) (message : String) (gen : Nat → String)
        (envs : Nat → DispatchEnv) (now : Int) (log : List DispatchRecord),
      retry_dispatch taskId agentIdOpt message gen envs now tasks log
        = .error ("Task not found: " ++ taskId))
    ∧ (∀ (content summary executionLog : String) (files : List String)
        (metadata : List (String × String)) (now : Int),
      store_task_result taskId content summary files metadata executionLog now
        tasks = .error ("Task not found: " ++ taskId))
    ∧ (∀ (fromState toState actor reason : String) (now : Int),
      record_state_transition taskId fromState toState actor reason now tasks
        = .ok tasks) := by
  have hfind : tasks.find? (fun t => t.id == taskId) = none := by
    rw [List.find?_eq_none]
    intro t ht
    simp [h t ht]
  refine ⟨?_, ?_, ?_⟩
  · intro agentIdOpt message gen envs now log
    unfold retry_dispatch
    rw [hfind]
  · intro content summary executionLog files metadata now
    have hany : tasks.any (fun t => t.id == taskId) = false := by
      rw [List.any_eq_false]
      intro t ht
      simp [h t ht]
    unfold store_task_result
    rw [hany]
    rfl
  · intro fromState toState actor reason now
    unfold record_state_transition
    rw [updateFirst_nomatch h]

/-- Witness for C6 (amended): all three behaviours at the empty table. -/
theorem C6_witness :
    retry_dispatch "t9" none "m" (fun _ => "i") (fun _ => ⟨.err "e", .timedOut⟩)
        0 [] [] = .error "Task not found: t9"
    ∧ store_task_result "t9" "" "" [] [] "" 0 [] = .error "Task not found: t9"
    ∧ record_state_transition "t9" "a" "b" "system" "" 0 [] = .ok [] := by
  have h := C6_amended_not_found "t9" [] (by simp)
  exact ⟨h.1 none "m" (fun _ => "i") (fun _ => ⟨.err "e", .timedOut⟩) 0 [],
    h.2.1 "" "" "" [] [] 0, h.2.2 "a" "b" "system" "" 0⟩

-- ── C7: dispatch log vs delegation log bounds ───────────────────────────────

/-- A sample delegation record. -/
def sampleDelegation : DelegationRecord :=
  { id := "dlg_1", task_id := "t1", supervisor_id := "jarvis"
    worker_id := "loki", reason := "", skills_matched := []
    state := "delegated", feedback := none, iteration := 1
    created_at_ms := 0 }

theorem record_delegation_foldl :
    ∀ (calls : List DelegationRecord) (init : List DelegationRecord),
      calls.foldl record_delegation init = init ++ calls := by
  intro calls
  induction calls with
  | nil => intro init; simp
  | cons c cs ih =>
      intro init
      simp [record_delegation, ih]

/-- Counterexample to C7: after 501 `record_delegation` calls the in-memory
    delegation log retains 501 records — it is not bounded at 500. -/
theorem C7_counterexample :
    ((List.replicate 501 sampleDelegation).foldl record_delegation []).length
      = 501 ∧ 500 < 501 := by
  constructor
  · rw [record_delegation_foldl, List.nil_append, List.length_replicate]
  · decide

/-- C7 amended: the dispatch log is a bounded ring buffer keeping at most
    the most recent 500 records (oldest evicted first); the delegation log,
    by contrast, is an unbounded list that retains every record in call
    order. -/
theorem C7_amended_log_bounds :
    (∀ calls : List DelegationRecord,
      calls.foldl record_delegation [] = calls)
    ∧ (∀ (log : List DispatchRecord) (r : DispatchRecord),
      (dispatchLogAppend log r).length ≤ 500)
    ∧ (∀ (log : List DispatchRecord) (r : DispatchRecord),
      log.length < 500 → dispatchLogAppend log r = log ++ [r])
    ∧ (∀ (log : List DispatchRecord) (r : DispatchRecord),
      log.length = 500 → dispatchLogAppend log r = log.tail ++ [r]) := by
  refine ⟨?_, ?_, ?_, ?_⟩
  · intro calls
    rw [record_delegation_foldl]
    simp
  · intro log r
    simp only [dispatchLogAppend, boundedAppend, lastN, List.length_drop]
    omega
  · intro log r hlt
    unfold dispatchLogAppend boundedAppend lastN
    rw [show (log ++ [r]).length - 500 = 0 from by
      simp only [List.length_append, List.length_cons, List.length_nil]
      omega]
    rfl
  · intro log r heq
    have hle : 1 ≤ log.length := by omega
    unfold dispatchLogAppend boundedAppend lastN
    rw [show (log ++ [r]).length - 500 = 1 from by
      simp only [List.length_append, List.length_cons, List.length_nil]
      omega]
    rw [List.drop_append_of_le_length hle, List.drop_one]

/-- A sample dispatch record. -/
def sampleDispatch : DispatchRecord := mkDispatchRecord "dsp_1" 0 "t1" "loki" "m" 1

/-- Witness for C7 (amended): appending to a full 500-record dispatch log
    evicts the oldest record. -/
theorem C7_witness :
    dispatchLogAppend (List.replicate 500 sampleDispatch) sampleDispatch
      = (List.replicate 500 sampleDispatch).tail ++ [sampleDispatch] :=
  C7_amended_log_bounds.2.2.2 (List.replicate 500 sampleDispatch)
    sampleDispatch (by rw [List.length_replicate])

-- ── C8: capability matching ─────────────────────────────────────────────────

theorem foldlBest_mem :
    ∀ (t : List (String × Nat)) (h : String × Nat),
      t.foldl (fun best x => if x.2 > best.2 then x else best) h = h
        ∨ t.foldl (fun best x => if x.2 > best.2 then x else best) h ∈ t := by
  intro t
  induction t with
  | nil => intro h; exact Or.inl rfl
  | cons a as ih =>
      intro h
      rw [List.foldl_cons]
      rcases ih (if a.2 > h.2 then a else h) with heq | hm
      · rw [heq]
        by_cases hc : a.2 > h.2
        · rw [if_pos hc]; exact Or.inr (List.mem_cons_self a as)
        · rw [if_neg hc]; exact Or.inl rfl
      · exact Or.inr (List.mem_cons_of_mem a hm)

theorem foldlBest_ge :
    ∀ (t : List (String × Nat)) (h : String × Nat),
      h.2 ≤ (t.foldl (fun best x => if x.2 > best.2 then x else best) h).2
      ∧ ∀ x ∈ t,
          x.2 ≤ (t.foldl (fun best x => if x.2 > best.2 then x else best) h).2 := by
  intro t
  induction t with
  | nil =>
      intro h
      exact ⟨Nat.le_refl _, by intro x hx; simp at hx⟩
  | cons a as ih =>
      intro h
      rw [List.foldl_cons]
      have h1 : h.2 ≤ (if a.2 > h.2 then a else h).2 := by
        by_cases hc : a.2 > h.2
        · rw [if_pos hc]; exact Nat.le_of_lt hc
        · rw [if_neg hc]
      have h2 : a.2 ≤ (if a.2 > h.2 then a else h).2 := by
        by_cases hc : a.2 > h.2
        · rw [if_pos hc]
        · rw [if_neg hc]; omega
      have ihh := ih (if a.2 > h.2 then a else h)
      refine ⟨Nat.le_trans h1 ihh.1, ?_⟩
      intro x hx
      rcases List.mem_cons.mp hx with rfl | hm
      · exact Nat.le_trans h2 ihh.1
      · exact ihh.2 x hm

theorem pickBest_none (l : List (String × Nat)) :
    pickBest l = none ↔ l = [] := by
  cases l <;> simp [pickBest]

theorem pickBest_spec {l : List (String × Nat)} {a : String}
    (h : pickBest l = some a) :
    ∃ s, (a, s) ∈ l ∧ ∀ p ∈ l, p.2 ≤ s := by
  cases l with
  | nil => simp [pickBest] at h
  | cons hd t =>
      have hb :
          (t.foldl (fun best x => if x.2 > best.2 then x else best) hd).1 = a := by
        simpa [pickBest] using h
      refine ⟨(t.foldl (fun best x => if x.2 > best.2 then x else best) hd).2,
        ?_, ?_⟩
      · show (a, (t.foldl (fun best x => if x.2 > best.2 then x else best) hd).2)
          ∈ hd :: t
        rw [← hb]
        rcases foldlBest_mem t hd with heq | hm
        · rw [show ((t.foldl (fun best x => if x.2 > best.2 then x else best) hd).1,
              (t.foldl (fun best x => if x.2 > best.2 then x else best) hd).2)
              = t.foldl (fun best x => if x.2 > best.2 then x else best) hd
              from rfl, heq]
          exact List.mem_cons_self _ _
        · rw [show ((t.foldl (fun best x => if x.2 > best.2 then x else best) hd).1,
              (t.foldl (fun best x => if x.2 > best.2 then x else best) hd).2)
              = t.foldl (fun best x => if x.2 > best.2 then x else best) hd
              from rfl]
          exact List.mem_cons_of_mem _ hm
      · intro p hp
        rcases List.mem_cons.mp hp with rfl | hm
        · exact (foldlBest_ge t p).1
        · exact (foldlBest_ge t hd).2 p hm

theorem matchScores_mem {text a : String} {s : Nat}
    (h : (a, s) ∈ matchScores text) :
    ∃ caps, (a, caps) ∈ AGENT_CAPABILITIES ∧ caps.isSupervisor = false
      ∧ caps.canExecute = true ∧ agentScore text caps = s ∧ 0 < s := by
  unfold matchScores at h
  rw [List.mem_filterMap] at h
  obtain ⟨p, hp, hf⟩ := h
  cases hs : p.2.isSupervisor <;> cases hc : p.2.canExecute <;>
    simp only [hs, hc, Bool.false_or, Bool.true_or, Bool.not_true,
      Bool.not_false, Bool.or_true, Bool.or_false, if_true, if_false,
      ite_true, ite_false] at hf
  case false.true =>
    by_cases hpos : agentScore text p.2 > 0
    · rw [if_pos hpos] at hf
      have ha : p.1 = a := (Prod.mk.injEq _ _ _ _ ▸ Option.some.inj hf).1
      have hsc : agentScore text p.2 = s :=
        (Prod.mk.injEq _ _ _ _ ▸ Option.some.inj hf).2
      refine ⟨p.2, ?_, hs, hc, hsc, by omega⟩
      rw [← ha]
      simpa using hp
    · rw [if_neg hpos] at hf
      exact absurd hf (by simp)
  all_goals exact absurd hf (by simp)

theorem matchScores_complete {text bid : String} {bcaps : AgentCaps}
    (hmem : (bid, bcaps) ∈ AGENT_CAPABILITIES)
    (hsup : bcaps.isSupervisor = false) (hexec : bcaps.canExecute = true)
    (hpos : 0 < agentScore text bcaps) :
    (bid, agentScore text bcaps) ∈ matchScores text := by
  unfold matchScores
  rw [List.mem_filterMap]
  exact ⟨(bid, bcaps), hmem, by simp [hsup, hexec, hpos]⟩

/-- C8: `match_agent_for_task` scores every non-supervisor executing agent
    over the lowercased title-plus-description text (+3 per verbatim skill
    tag, +2 per expansion keyword, both encoded in `agentScore`); a returned
    agent is a worker with maximal strictly positive score, `none` is
    returned exactly when every worker scores zero, and on the text
    "fix the bug in the login page" the developer agent "friday"
    (coding/debugging skills) is selected. -/
theorem C8_capability_matching :
    (∀ (title desc a : String),
      match_agent_for_task title desc = some a →
      ∃ caps, (a, caps) ∈ AGENT_CAPABILITIES
        ∧ caps.isSupervisor = false ∧ caps.canExecute = true
        ∧ 0 < agentScore (lowerStr title ++ " " ++ lowerStr desc) caps
        ∧ ∀ (bid : String) (bcaps : AgentCaps),
            (bid, bcaps) ∈ AGENT_CAPABILITIES →
            bcaps.isSupervisor = false → bcaps.canExecute = true →
            agentScore (lowerStr title ++ " " ++ lowerStr desc) bcaps
              ≤ agentScore (lowerStr title ++ " " ++ lowerStr desc) caps)
    ∧ (∀ (title desc : String),
      match_agent_for_task title desc = none ↔
        ∀ (bid : String) (bcaps : AgentCaps),
          (bid, bcaps) ∈ AGENT_CAPABILITIES →
          bcaps.isSupervisor = false → bcaps.canExecute = true →
          agentScore (lowerStr title ++ " " ++ lowerStr desc) bcaps = 0)
    ∧ match_agent_for_task "fix the bug in the login page" "" = some "friday" := by
  refine ⟨?_, ?_, by decide⟩
  · intro title desc a h
    unfold match_agent_for_task at h
    obtain ⟨s, hmem, hmax⟩ := pickBest_spec h
    obtain ⟨caps, hc1, hc2, hc3, hc4, hc5⟩ := matchScores_mem hmem
    refine ⟨caps, hc1, hc2, hc3, by rw [hc4]; exact hc5, ?_⟩
    intro bid bcaps hb hbsup hbexec
    by_cases hbpos :
        0 < agentScore (lowerStr title ++ " " ++ lowerStr desc) bcaps
    · have hin := matchScores_complete hb hbsup hbexec hbpos
      have := hmax _ hin
      rw [hc4]
      exact this
    · rw [hc4]
      omega
  · intro title desc
    unfold match_agent_for_task
    rw [pickBest_none]
    constructor
    · intro hnil bid bcaps hb hbs hbe
      by_contra hne
      have hpos :
          0 < agentScore (lowerStr title ++ " " ++ lowerStr desc) bcaps :=
        Nat.pos_of_ne_zero hne
      have := matchScores_complete hb hbs hbe hpos
      rw [hnil] at this
      simp at this
    · intro hall
      unfold matchScores
      rw [List.filterMap_eq_nil_iff]
      intro p hp
      cases hs : p.2.isSupervisor <;> cases hc : p.2.canExecute <;>
        simp only [hs, hc, Bool.false_or, Bool.true_or, Bool.not_true,
          Bool.not_false, Bool.or_true, Bool.or_false, ite_true, ite_false]
      case false.true =>
        have hz := hall p.1 p.2 (by simpa using hp) hs hc
        rw [hz]
        rfl

/-- Witness for C8: the selection on the scenario text, fed through the
    theorem, yields a maximal positively-scored worker. -/
theorem C8_witness :
    ∃ caps, ("friday", caps) ∈ AGENT_CAPABILITIES
      ∧ caps.isSupervisor = false ∧ caps.canExecute = true
      ∧ 0 < agentScore
          (lowerStr "fix the bug in the login page" ++ " " ++ lowerStr "") caps
      ∧ ∀ (bid : String) (bcaps : AgentCaps),
          (bid, bcaps) ∈ AGENT_CAPABILITIES →
          bcaps.isSupervisor = false → bcaps.canExecute = true →
          agentScore
            (lowerStr "fix the bug in the login page" ++ " " ++ lowerStr "")
            bcaps
          ≤ agentScore
              (lowerStr "fix the bug in the login page" ++ " " ++ lowerStr "")
              caps :=
  C8_capability_matching.1 "fix the bug in the login page" "" "friday"
    (by decide)

-- ── C9: event bus backpressure ──────────────────────────────────────────────

theorem filterMap_enqueue_all_free (e : BusEvent) :
    ∀ l : List SubQueue, (∀ q ∈ l, queueFull q = false) →
      l.filterMap (fun q =>
          if queueFull q then none
          else some { q with contents := q.contents ++ [e] })
        = l.map (fun q => { q with contents := q.contents ++ [e] }) := by
  intro l
  induction l with
  | nil => intro _; rfl
  | cons a as ih =>
      intro h
      have ha := h a (by simp)
      simp [List.filterMap_cons, ha, ih (fun x hx => h x (by simp [hx]))]

/-- C9: a publish with every subscriber queue below capacity appends the
    event to all of them and leaves the registry unchanged (same queues,
    same order); a subscriber whose queue is full at publish time gets
    nothing and is absent from the registry afterwards.  `publish` is a
    total function, so no error reaches the publisher in either case. -/
theorem C9_publish_backpressure :
    (∀ (st : BusState) (e : BusEvent),
      (∀ q ∈ st.subscribers, queueFull q = false) →
      (publish st e).subscribers
          = st.subscribers.map (fun q => { q with contents := q.contents ++ [e] })
      ∧ (publish st e).subscribers.map (fun q => q.qid)
          = st.subscribers.map (fun q => q.qid)
      ∧ (publish st e).subscribers.length = st.subscribers.length)
    ∧ (∀ (st : BusState) (e : BusEvent) (q : SubQueue),
      (st.subscribers.map (fun q => q.qid)).Nodup →
      q ∈ st.subscribers → queueFull q = true →
      ∀ q2 ∈ (publish st e).subscribers, q2.qid ≠ q.qid) := by
  constructor
  · intro st e h
    have h1 : (publish st e).subscribers
        = st.subscribers.map (fun q => { q with contents := q.contents ++ [e] }) := by
      show st.subscribers.filterMap _ = _
      exact filterMap_enqueue_all_free e st.subscribers h
    refine ⟨h1, ?_, ?_⟩
    · rw [h1, List.map_map]
      rfl
    · rw [h1, List.length_map]
  · intro st e q hnodup hqmem hqfull q2 hq2 hqeq
    have hq2' : q2 ∈ st.subscribers.filterMap (fun q =>
        if queueFull q then none
        else some { q with contents := q.contents ++ [e] }) := hq2
    rw [List.mem_filterMap] at hq2'
    obtain ⟨q0, hq0, hf⟩ := hq2'
    by_cases hful : queueFull q0 = true
    · rw [if_pos hful] at hf
      exact absurd hf (by simp)
    · rw [if_neg hful] at hf
      have hqid : q0.qid = q.qid := by
        have h0 : q2.qid = q0.qid := by rw [← Option.some.inj hf]
        rw [← h0]
        exact hqeq
      have : q0 = q :=
        List.inj_on_of_nodup_map hnodup hq0 hqmem hqid
      rw [this] at hful
      exact hful hqfull

/-- Subscriber queues, bus state and event for the C9 witness. -/
def qA : SubQueue := { qid := 1, maxsize := 2, contents := [] }

/-- Second subscriber queue for the C9 witness. -/
def qB : SubQueue := { qid := 2, maxsize := 2, contents := [] }

/-- Bus state for the C9 witness. -/
def busW : BusState := { subscribers := [qA, qB], history := [] }

/-- Event for the C9 witness. -/
def evW : BusEvent := { etype := "t", payload := "d" }

/-- Witness for C9: a two-subscriber bus with free capacity receives the
    event on both queues. -/
theorem C9_witness :
    (publish busW evW).subscribers
      = [qA, qB].map (fun q => { q with contents := q.contents ++ [evW] }) :=
  (C9_publish_backpressure.1 busW evW (by decide)).1

-- ── C10: gateway response matching ──────────────────────────────────────────

theorem awaitResponse_skip (reqId : String) (m : GwMessage)
    (rest : List GwMessage) (h : m.mid ≠ some reqId) :
    awaitResponse reqId (m :: rest) = awaitResponse reqId rest := by
  simp [awaitResponse, h]

theorem awaitResponse_exhausted (reqId : String) :
    ∀ msgs : List GwMessage, (∀ m ∈ msgs, m.mid ≠ some reqId) →
      awaitResponse reqId msgs
        = .error ("Timeout waiting for response to " ++ reqId) := by
  intro msgs
  induction msgs with
  | nil => intro _; rfl
  | cons m rest ih =>
      intro h
      rw [awaitResponse_skip reqId m rest (h m (by simp))]
      exact ih (fun x hx => h x (by simp [hx]))

/-- C10: the response-await loop skips every message whose id differs from
    the outstanding request id and resolves on the first id match —
    returning the payload (envelope form) or result (generic form) on
    success, raising the single gateway-error kind with the remote message
    on an error response, and raising the same kind with a timeout message
    when no matching message arrives before the overall deadline
    (default 30 s). -/
theorem C10_await_response :
    awaitResponseTimeoutSecs = 30
    ∧ (∀ (reqId : String) (m : GwMessage) (rest : List GwMessage),
      m.mid ≠ some reqId →
      awaitResponse reqId (m :: rest) = awaitResponse reqId rest)
    ∧ (∀ (reqId : String) (m : GwMessage) (rest : List GwMessage),
      m.mid = some reqId → m.mtype = some "res" →
      (m.ok = none ∨ m.ok = some true) →
      awaitResponse reqId (m :: rest) = .ok m.payload)
    ∧ (∀ (reqId : String) (m : GwMessage) (rest : List GwMessage),
      m.mid = some reqId → m.mtype = some "res" → m.ok = some false →
      awaitResponse reqId (m :: rest)
        = .error ((m.errField.bind id).getD "Gateway error"))
    ∧ (∀ (reqId : String) (m : GwMessage) (rest : List GwMessage),
      m.mid = some reqId → m.mtype ≠ some "res" → m.errField = none →
      awaitResponse reqId (m :: rest) = .ok m.result)
    ∧ (∀ (reqId : String) (m : GwMessage) (rest : List GwMessage)
        (inner : Option String),
      m.mid = some reqId → m.mtype ≠ some "res" → m.errField = some inner →
      awaitResponse reqId (m :: rest) = .error (inner.getD "Gateway error"))
    ∧ (∀ (reqId : String) (msgs : List GwMessage),
      (∀ m ∈ msgs, m.mid ≠ some reqId) →
      awaitResponse reqId msgs
        = .error ("Timeout waiting for response to " ++ reqId)) := by
  refine ⟨rfl, awaitResponse_skip, ?_, ?_, ?_, ?_, awaitResponse_exhausted⟩
  · intro reqId m rest hid ht hok
    rcases hok with hok | hok <;> simp [awaitResponse, hid, ht, hok]
  · intro reqId m rest hid ht hok
    simp [awaitResponse, hid, ht, hok]
  · intro reqId m rest hid ht herr
    simp [awaitResponse, hid, ht, herr]
  · intro reqId m rest inner hid ht herr
    simp [awaitResponse, hid, ht, herr]

/-- Witness for C10: an unsolicited event is skipped and the wait then times
    out; a matching success response resolves with its payload. -/
theorem C10_witness :
    awaitResponse "r1"
        [{ mtype := some "event", mid := none, ok := none, errField := none
           payload := none, result := none }]
      = .error ("Timeout waiting for response to " ++ "r1")
    ∧ awaitResponse "r1"
        [{ mtype := some "res", mid := some "r1", ok := some true
           errField := none, payload := some "pl", result := none }]
      = .ok (some "pl") := by
  constructor
  · exact C10_await_response.2.2.2.2.2.2 "r1"
      [{ mtype := some "event", mid := none, ok := none, errField := none
         payload := none, result := none }] (by decide)
  · exact C10_await_response.2.2.1 "r1"
      { mtype := some "res", mid := some "r1", ok := some true
        errField := none, payload := some "pl", result := none } []
      rfl rfl (Or.inr rfl)

end AgentCrab
